import Mathlib

/-!
Shallow embedding of the `sql_automation` package (config.py, renderer.py,
bigquery_ops.py, cli.py): the spec model and validators, the strict SQL
template renderer, the dry-run cost gate, the scheduled-query reconciler,
and the deploy pipeline of the CLI.  Python dicts are modelled as
association lists, Python exceptions as `Except`, and the remote
BigQuery / Data Transfer services as explicit state passed in and out.
-/

/-- Splits a character list at every occurrence of the separator `c`;
`[]` yields `[[]]`, matching Python `"".split(sep) == [""]`. -/
def splitChars (c : Char) : List Char → List (List Char)
  | [] => [[]]
  | ch :: rest =>
      let r := splitChars c rest
      if ch = c then [] :: r
      else
        match r with
        | [] => [[ch]]
        | s :: ss => (ch :: s) :: ss

/-- Python `s.split(sep)` for a one-character separator. -/
def pySplit (s : String) (c : Char) : List String :=
  (splitChars c s.toList).map (fun l => ⟨l⟩)

/-- Python `s.strip()`: whitespace removed from both ends. -/
def pyStrip (s : String) : String :=
  ⟨((s.toList.dropWhile Char.isWhitespace).reverse.dropWhile Char.isWhitespace).reverse⟩

/-- Python `s.upper()` (ASCII case mapping). -/
def pyUpper (s : String) : String :=
  ⟨s.toList.map Char.toUpper⟩

/-- Python `s.lower()` (ASCII case mapping). -/
def pyLower (s : String) : String :=
  ⟨s.toList.map Char.toLower⟩

/-- Python `s.startswith(pre)`. -/
def pyStartsWith (s pre : String) : Bool :=
  pre.toList.isPrefixOf s.toList

/-- Python `dict.get`: first value bound to the key, if any. -/
def lookupKV {β : Type} (l : List (String × β)) (k : String) : Option β :=
  (l.find? (fun p => p.1 == k)).map (fun p => p.2)

/-- Python `d[k] = v` on a dict: replace the value in place when the key
exists, otherwise append the new binding. -/
def insertKV (l : List (String × String)) (k v : String) : List (String × String) :=
  match l with
  | [] => [(k, v)]
  | (k1, v1) :: rest =>
      if k1 == k then (k, v) :: rest else (k1, v1) :: insertKV rest k v

/-- `Limits` (config.py): the byte ceiling; `max_bytes_billed` is declared
with `ge=0`, so a non-negative integer. -/
structure Limits where
  max_bytes_billed : Nat
  deriving Repr, DecidableEq

/-- `JobSpec` (config.py): the validated job description. -/
structure JobSpec where
  name : String
  schedule : String
  sql_template : String
  destination_table : String
  write_disposition : String
  labels : List (String × String)
  parameters : List (String × String)
  limits : Limits
  environment : Option String
  deriving Repr, DecidableEq

/-- The raw YAML mapping handed to `JobSpec(**data)`: every field still
optional / unvalidated.  `limits` holds the raw (possibly negative)
`max_bytes_billed` integer. -/
structure SpecDoc where
  name : Option String
  schedule : Option String
  sql_template : Option String
  destination_table : Option String
  write_disposition : Option String
  labels : List (String × String)
  parameters : List (String × String)
  limits : Option Int
  environment : Option String
  deriving Repr, DecidableEq

/-- Modelled from the spec: `CronSlices.is_valid` of the external
`crontab` library, "a syntactically valid 5-field cron expression" —
five non-empty whitespace-separated fields. -/
def CronSlices.is_valid (s : String) : Bool :=
  ((pySplit s ' ').filter (fun f => !f.isEmpty)).length == 5

/-- `JobSpec.validate_write_disposition` (config.py): uppercase the value
and require membership in the allowed set. -/
def JobSpec.validate_write_disposition (v : String) : Except String String :=
  let allowed := ["WRITE_TRUNCATE", "WRITE_APPEND", "WRITE_EMPTY"]
  let v_upper := pyUpper v
  if v_upper ∈ allowed then .ok v_upper
  else .error ("write_disposition must be one of allowed values, got " ++ v)

/-- `JobSpec.validate_schedule` (config.py): strip, accept anything whose
lowercase form starts with "every ", otherwise require a valid cron string. -/
def JobSpec.validate_schedule (v : String) : Except String String :=
  let v_stripped := pyStrip v
  if pyStartsWith (pyLower v_stripped) "every " then .ok v_stripped
  else if CronSlices.is_valid v_stripped then .ok v_stripped
  else .error ("schedule must be valid cron or every-string, got " ++ v_stripped)

/-- `JobSpec.validate_destination_table` (config.py): strip, split on dots,
require exactly 2 or 3 segments. -/
def JobSpec.validate_destination_table (v : String) : Except String String :=
  let raw := pyStrip v
  let parts := pySplit raw '.'
  if parts.length = 2 ∨ parts.length = 3 then .ok raw
  else .error ("destination_table must be dataset.table or project.dataset.table, got " ++ raw)

/-- The resolution step `self.environment or self.labels.get("environment")`
of the model validator (config.py); by Python truthiness an empty-string
field falls through to the label. -/
def resolved_environment (environment : Option String) (labels : List (String × String)) :
    Option String :=
  match environment with
  | some s => if s.isEmpty then lookupKV labels "environment" else some s
  | none => lookupKV labels "environment"

/-- `JobSpec.validate_labels_and_env` (config.py, model validator): require
the three label keys, resolve the environment, require it in
{dev, stage, prod}, and write it back into both the field and the label. -/
def JobSpec.validate_labels_and_env (spec : JobSpec) : Except String JobSpec :=
  let required_labels := ["owner", "domain", "environment"]
  let missing := required_labels.filter (fun lbl => (lookupKV spec.labels lbl).isNone)
  if missing ≠ [] then .error "missing required labels"
  else
    match resolved_environment spec.environment spec.labels with
    | some e =>
        if e = "dev" ∨ e = "stage" ∨ e = "prod" then
          .ok { spec with environment := some e, labels := insertKV spec.labels "environment" e }
        else .error "environment must be one of dev/stage/prod"
    | none => .error "environment must be one of dev/stage/prod"

/-- Pydantic construction `JobSpec(**data)` (config.py): required fields
must be present, field validators run (a missing `write_disposition` takes
the declared default `"WRITE_TRUNCATE"` without passing through its
validator, as pydantic does for defaults), then the model validator. -/
def JobSpec.parse (doc : SpecDoc) : Except String JobSpec :=
  match doc.name with
  | none => .error "field required: name"
  | some name =>
    match doc.schedule with
    | none => .error "field required: schedule"
    | some schedule0 =>
      match JobSpec.validate_schedule schedule0 with
      | .error e => .error e
      | .ok schedule =>
        match doc.sql_template with
        | none => .error "field required: sql_template"
        | some sql_template =>
          match doc.destination_table with
          | none => .error "field required: destination_table"
          | some destination_table0 =>
            match JobSpec.validate_destination_table destination_table0 with
            | .error e => .error e
            | .ok destination_table =>
              match (match doc.write_disposition with
                     | none => Except.ok "WRITE_TRUNCATE"
                     | some wd0 => JobSpec.validate_write_disposition wd0) with
              | .error e => .error e
              | .ok write_disposition =>
                match doc.limits with
                | none => .error "field required: limits"
                | some raw_limit =>
                  if raw_limit < 0 then .error "max_bytes_billed must be >= 0"
                  else
                    JobSpec.validate_labels_and_env
                      { name := name
                        schedule := schedule
                        sql_template := sql_template
                        destination_table := destination_table
                        write_disposition := write_disposition
                        labels := doc.labels
                        parameters := doc.parameters
                        limits := { max_bytes_billed := raw_limit.toNat }
                        environment := doc.environment }

/-- A token of a SQL template: literal text or a `{{name}}` placeholder.
Models the template files consumed by the Jinja2 engine in renderer.py. -/
inductive TmplToken where
  | lit (s : String)
  | var (name : String)
  deriving Repr, DecidableEq

/-- A template is its token sequence. -/
abbrev Template := List TmplToken

/-- The placeholder names a template references. -/
def referencedVars (t : Template) : List String :=
  t.filterMap (fun tok => match tok with | .lit _ => none | .var n => some n)

/-- Models `template.render(**parameters)` under `StrictUndefined`
(renderer.py sets `undefined=StrictUndefined` on the `Environment`):
substitute every placeholder from `parameters`, failing on the first
placeholder that is not bound. -/
def substTokens : Template → List (String × String) → Option String
  | [], _ => some ""
  | .lit s :: rest, p => (substTokens rest p).map (fun r => s ++ r)
  | .var n :: rest, p =>
      match lookupKV p n with
      | none => none
      | some v => (substTokens rest p).map (fun r => v ++ r)

/-- `SqlRenderer.render` (renderer.py): load the template from the root
(the `FileSystemLoader` is the association list `templates`), render it
strictly, and strip the result. -/
def SqlRenderer.render (templates : List (String × Template))
    (template_path : String) (parameters : List (String × String)) :
    Except String String :=
  match lookupKV templates template_path with
  | none => .error ("failed to load SQL template " ++ template_path)
  | some t =>
      match substTokens t parameters with
      | none => .error ("failed to render SQL template " ++ template_path)
      | some sql => .ok (pyStrip sql)

/-- `ParsedTableId` (bigquery_ops.py). -/
structure ParsedTableId where
  project_id : String
  dataset_id : String
  table_id : String
  deriving Repr, DecidableEq

/-- `parse_table_id` (bigquery_ops.py): 2 segments inherit the default
project, 3 segments are fully qualified, anything else raises. -/
def parse_table_id (destination_table : String) (default_project : String) :
    Except String ParsedTableId :=
  match pySplit destination_table '.' with
  | [dataset_id, table_id] =>
      .ok { project_id := default_project, dataset_id := dataset_id, table_id := table_id }
  | [project_id, dataset_id, table_id] =>
      .ok { project_id := project_id, dataset_id := dataset_id, table_id := table_id }
  | _ => .error ("destination_table must be dataset.table or project.dataset.table, got "
                 ++ destination_table)

/-- `dry_run_query` (bigquery_ops.py).  The BigQuery client call is the
external collaborator: `estimatedBytes` and `slot_ms` stand for the
`totalBytesProcessed` / `totalSlotMs` statistics of its dry-run response
(`slot_ms` is passed through opaquely, so its type is a parameter).  The
gate raises, carrying the estimate and the ceiling, when the estimate
exceeds `max_bytes_billed`; otherwise it returns the pair. -/
def dry_run_query {α : Type} (estimatedBytes : Nat) (slot_ms : α)
    (max_bytes_billed : Nat) : Except (Nat × Nat) (Nat × α) :=
  if estimatedBytes > max_bytes_billed then
    .error (estimatedBytes, max_bytes_billed)
  else
    .ok (estimatedBytes, slot_ms)

/-- The `params` dict built for the `scheduled_query` data source
(bigquery_ops.py). -/
structure TransferParams where
  query : String
  destination_table_name_template : String
  write_disposition : String
  partitioning_field : String
  deriving Repr, DecidableEq

/-- A remote `TransferConfig`.  `owner_acl` and `creation_time` stand for
the remote-side fields (ACLs, timestamps) that the tool never writes. -/
structure TransferConfig where
  name : String
  destination_dataset_id : String
  display_name : String
  data_source_id : String
  params : TransferParams
  schedule : String
  disabled : Bool
  owner_acl : String
  creation_time : Nat
  deriving Repr, DecidableEq

/-- The remote Data Transfer service's persisted state: the listed
configs and a counter from which it assigns fresh resource names. -/
structure RemoteStore where
  configs : List TransferConfig
  nextId : Nat
  deriving Repr, DecidableEq

/-- A remote store with no transfer configs. -/
def emptyStore : RemoteStore := { configs := [], nextId := 0 }

/-- `create_transfer_config` on the remote service: assigns a fresh
resource name (and remote-side metadata) and appends the config. -/
def create_transfer_config (store : RemoteStore) (cfg : TransferConfig) :
    RemoteStore × TransferConfig :=
  let assigned := { cfg with
                    name := "transferConfigs/" ++ toString store.nextId
                    creation_time := store.nextId }
  ({ configs := store.configs ++ [assigned], nextId := store.nextId + 1 }, assigned)

/-- Field-mask merge: the remote service overwrites exactly the masked
paths of the stored config with the values of the submitted one. -/
def applyUpdateMask (old new : TransferConfig) (mask : List String) : TransferConfig :=
  { old with
    params := if mask.contains "params" then new.params else old.params
    schedule := if mask.contains "schedule" then new.schedule else old.schedule
    display_name := if mask.contains "display_name" then new.display_name else old.display_name }

/-- `update_transfer_config` on the remote service: the config whose
resource name matches `cfg.name` is replaced by the mask-merge.  -/
def update_transfer_config (store : RemoteStore) (cfg : TransferConfig)
    (mask : List String) : RemoteStore :=
  { store with
    configs := store.configs.map
      (fun c => if c.name == cfg.name then applyUpdateMask c cfg mask else c) }

/-- The identity test of the reconciliation loop in
`deploy_scheduled_query` (bigquery_ops.py): display name, destination
dataset and data source must all match. -/
def matches_triple (job_spec : JobSpec) (parsed : ParsedTableId)
    (cfg : TransferConfig) : Bool :=
  cfg.display_name == job_spec.name
    && cfg.destination_dataset_id == parsed.dataset_id
    && cfg.data_source_id == "scheduled_query"

/-- Which branch `deploy_scheduled_query` took. -/
inductive DeployBranch where
  | created
  | updated
  deriving Repr, DecidableEq

/-- `deploy_scheduled_query` (bigquery_ops.py): parse the destination
table, build the desired transfer config, scan the listed configs for the
first identity-triple match, then create (no match) or update with the
mask {params, schedule, display_name} (match). -/
def deploy_scheduled_query (job_spec : JobSpec) (sql : String)
    (default_project : String) (store : RemoteStore) :
    Except String (RemoteStore × DeployBranch) :=
  match parse_table_id job_spec.destination_table default_project with
  | .error e => .error e
  | .ok parsed =>
    let params : TransferParams :=
      { query := sql
        destination_table_name_template := parsed.table_id
        write_disposition := job_spec.write_disposition
        partitioning_field := "" }
    let transfer_config : TransferConfig :=
      { name := ""
        destination_dataset_id := parsed.dataset_id
        display_name := job_spec.name
        data_source_id := "scheduled_query"
        params := params
        schedule := job_spec.schedule
        disabled := false
        owner_acl := ""
        creation_time := 0 }
    match store.configs.find? (matches_triple job_spec parsed) with
    | none =>
        .ok ((create_transfer_config store transfer_config).1, .created)
    | some existing =>
        let submitted := { transfer_config with name := existing.name }
        let update_mask := ["params", "schedule", "display_name"]
        .ok (update_transfer_config store submitted update_mask, .updated)

/-- `cmd_deploy` (cli.py): spec load + render, then the required-project
check, then the mandatory dry-run gate, then the remote reconcile.  Disk
and network collaborators appear as inputs: `doc` is the parsed YAML
mapping, `templates` the template root, `estimatedBytes`/`slot_ms` the
dry-run statistics, `store` the remote state.  Returns the exit code and
the remote state after the command. -/
def cmd_deploy (doc : SpecDoc) (templates : List (String × Template))
    (project : String) (estimatedBytes : Nat) (slot_ms : Nat)
    (store : RemoteStore) : Nat × RemoteStore :=
  match JobSpec.parse doc with
  | .error _ => (1, store)
  | .ok spec =>
    match SqlRenderer.render templates spec.sql_template spec.parameters with
    | .error _ => (1, store)
    | .ok sql =>
      if project = "" then (1, store)
      else
        match dry_run_query estimatedBytes slot_ms spec.limits.max_bytes_billed with
        | .error _ => (1, store)
        | .ok _ =>
          match deploy_scheduled_query spec sql project store with
          | .error _ => (1, store)
          | .ok (store1, _) => (0, store1)

deriving instance DecidableEq for Except

/-- A label set carrying the three required keys. -/
def sampleLabels : List (String × String) :=
  [("owner", "analytics"), ("domain", "sales"), ("environment", "dev")]

/-- A well-formed spec document used to exercise the parser. -/
def sampleDoc : SpecDoc :=
  { name := some "daily_sales"
    schedule := some "every 24 hours"
    sql_template := some "daily_sales.sql"
    destination_table := some "ds.t"
    write_disposition := some "write_truncate"
    labels := sampleLabels
    parameters := [("lookback_days", "7")]
    limits := some 1000000
    environment := none }

/-- A template with an unbound-variable hazard and surrounding whitespace. -/
def mvTemplate : Template :=
  [TmplToken.lit "  SELECT ", TmplToken.var "missing_var", TmplToken.lit "  "]

/-- A template root holding `mvTemplate` under `q.sql`. -/
def mvRoot : List (String × Template) := [("q.sql", mvTemplate)]

/-- The `JobSpec` that `sampleDoc` parses to. -/
def sampleSpec : JobSpec :=
  { name := "daily_sales"
    schedule := "every 24 hours"
    sql_template := "daily_sales.sql"
    destination_table := "ds.t"
    write_disposition := "WRITE_TRUNCATE"
    labels := sampleLabels
    parameters := [("lookback_days", "7")]
    limits := { max_bytes_billed := 1000000 }
    environment := some "dev" }

/-- The desired transfer config `deploy_scheduled_query` builds from a
spec, the rendered SQL and the parsed table id. -/
def desiredConfig (job_spec : JobSpec) (sql : String) (parsed : ParsedTableId) :
    TransferConfig :=
  { name := ""
    destination_dataset_id := parsed.dataset_id
    display_name := job_spec.name
    data_source_id := "scheduled_query"
    params := { query := sql
                destination_table_name_template := parsed.table_id
                write_disposition := job_spec.write_disposition
                partitioning_field := "" }
    schedule := job_spec.schedule
    disabled := false
    owner_acl := ""
    creation_time := 0 }

/-- A pre-existing remote config matching `sampleSpec`'s identity triple,
with remote-side fields the tool never writes. -/
def existingCfg : TransferConfig :=
  { name := "transferConfigs/9"
    destination_dataset_id := "ds"
    display_name := "daily_sales"
    data_source_id := "scheduled_query"
    params := { query := "old sql"
                destination_table_name_template := "t"
                write_disposition := "WRITE_APPEND"
                partitioning_field := "" }
    schedule := "every 12 hours"
    disabled := true
    owner_acl := "acl:owner@corp"
    creation_time := 42 }

/-- A remote config sharing `sampleSpec`'s display name but living in a
different destination dataset. -/
def otherCfg : TransferConfig :=
  { existingCfg with name := "transferConfigs/3", destination_dataset_id := "other_ds" }

/-- A remote store listing `otherCfg` before `existingCfg`. -/
def witnessStore : RemoteStore := { configs := [otherCfg, existingCfg], nextId := 10 }

/-- The template root the sample spec renders against. -/
def sampleRoot : List (String × Template) :=
  [("daily_sales.sql",
    [TmplToken.lit "SELECT * FROM t WHERE d > ", TmplToken.var "lookback_days"])]

/-- C1: the dry-run cost gate fails, carrying the estimate and the
ceiling, exactly when the estimate exceeds the ceiling; otherwise
(including equality) it returns the pair `(estimatedBytes, slot_ms)`. -/
theorem dry_run_gate {α : Type} (estimatedBytes maxBytesBilled : Nat) (slot_ms : α) :
    ((∃ p, dry_run_query estimatedBytes slot_ms maxBytesBilled = .error p) ↔
      estimatedBytes > maxBytesBilled) ∧
    (estimatedBytes > maxBytesBilled →
      dry_run_query estimatedBytes slot_ms maxBytesBilled =
        .error (estimatedBytes, maxBytesBilled)) ∧
    (estimatedBytes ≤ maxBytesBilled →
      dry_run_query estimatedBytes slot_ms maxBytesBilled = .ok (estimatedBytes, slot_ms)) := by
  unfold dry_run_query
  by_cases h : estimatedBytes > maxBytesBilled <;> simp [h]

/-- C1 witness: the spec's concrete numbers — 1,000,000 against a ceiling
of 500,000 is rejected with both numbers; 400,000 is accepted. -/
theorem dry_run_gate_witness :
    dry_run_query 1000000 (77 : Nat) 500000 = .error (1000000, 500000) ∧
    dry_run_query 400000 (77 : Nat) 500000 = .ok (400000, 77) :=
  ⟨(dry_run_gate 1000000 500000 77).2.1 (by decide),
   (dry_run_gate 400000 500000 77).2.2 (by decide)⟩

/-- C8: `write_disposition` is accepted exactly when its uppercase form
is one of the three allowed write dispositions, the stored value is the
uppercase form, the three casings of TRUNCATE normalize to the same
accepted value, and WRITE_DELETE is rejected. -/
theorem write_disposition_normalized :
    (∀ v : String, (∃ r, JobSpec.validate_write_disposition v = .ok r) ↔
      pyUpper v ∈ ["WRITE_TRUNCATE", "WRITE_APPEND", "WRITE_EMPTY"]) ∧
    (∀ v r, JobSpec.validate_write_disposition v = .ok r → r = pyUpper v) ∧
    JobSpec.validate_write_disposition "write_truncate" = .ok "WRITE_TRUNCATE" ∧
    JobSpec.validate_write_disposition "WRITE_TRUNCATE" = .ok "WRITE_TRUNCATE" ∧
    JobSpec.validate_write_disposition "Write_Truncate" = .ok "WRITE_TRUNCATE" ∧
    (∃ e, JobSpec.validate_write_disposition "WRITE_DELETE" = .error e) := by
  refine ⟨?_, ?_, by decide, by decide, by decide, ?_⟩
  · intro v
    unfold JobSpec.validate_write_disposition
    by_cases h : pyUpper v ∈ ["WRITE_TRUNCATE", "WRITE_APPEND", "WRITE_EMPTY"] <;> simp [h]
  · intro v r h
    simp only [JobSpec.validate_write_disposition] at h
    split at h
    · exact ((Except.ok.injEq _ _).mp h).symm
    · exact absurd h (by simp)
  · exact ⟨"write_disposition must be one of allowed values, got WRITE_DELETE", by decide⟩

/-- C8 witness: the iff instantiated at a case-mangled APPEND value. -/
theorem write_disposition_normalized_witness :
    ∃ r, JobSpec.validate_write_disposition "Write_Append" = .ok r :=
  (write_disposition_normalized.1 "Write_Append").mpr (by decide)

/-- C7 (amended): `destination_table` is accepted exactly when its
stripped value splits into 2 or 3 dot-separated segments — the segments
are not required to be non-empty — and the stored value is the stripped
one. -/
theorem destination_table_segment_count (v : String) :
    ((∃ r, JobSpec.validate_destination_table v = .ok r) ↔
      (pySplit (pyStrip v) '.').length = 2 ∨ (pySplit (pyStrip v) '.').length = 3) ∧
    (∀ r, JobSpec.validate_destination_table v = .ok r → r = pyStrip v) := by
  constructor
  · unfold JobSpec.validate_destination_table
    by_cases h : (pySplit (pyStrip v) '.').length = 2 ∨ (pySplit (pyStrip v) '.').length = 3 <;>
      simp [h]
  · intro r h
    simp only [JobSpec.validate_destination_table] at h
    split at h
    · exact ((Except.ok.injEq _ _).mp h).symm
    · exact absurd h (by simp)

/-- C7 witness: `"a.b.c.d"` (4 segments) is rejected, `"db.t"` accepted. -/
theorem destination_table_segment_count_witness :
    (¬ ∃ r, JobSpec.validate_destination_table "a.b.c.d" = .ok r) ∧
    (∃ r, JobSpec.validate_destination_table "db.t" = .ok r) :=
  ⟨fun hex => by
      have h := (destination_table_segment_count "a.b.c.d").1.mp hex
      exact absurd h (by decide),
   (destination_table_segment_count "db.t").1.mpr (by decide)⟩

/-- C7 counterexample: `"a..b"` has an empty middle segment, yet both the
field validator and full spec parsing accept it. -/
theorem destination_table_empty_segment_accepted :
    JobSpec.validate_destination_table "a..b" = .ok "a..b" ∧
    (JobSpec.parse { sampleDoc with destination_table := some "a..b" }).map
      (fun spec => spec.destination_table) = .ok "a..b" := by
  exact ⟨by decide, by decide⟩

/-- C9: a 2-segment `destination_table` resolves to the caller-supplied
default project plus the two segments in order; a 3-segment one takes its
project from the first segment and ignores the default project. -/
theorem parse_table_id_resolution (dt proj : String) :
    (∀ d t, pySplit dt '.' = [d, t] →
      parse_table_id dt proj = .ok { project_id := proj, dataset_id := d, table_id := t }) ∧
    (∀ p d t, pySplit dt '.' = [p, d, t] →
      parse_table_id dt proj = .ok { project_id := p, dataset_id := d, table_id := t } ∧
      ∀ proj2, parse_table_id dt proj2 =
        .ok { project_id := p, dataset_id := d, table_id := t }) := by
  constructor
  · intro d t h
    unfold parse_table_id
    rw [h]
  · intro p d t h
    refine ⟨?_, fun proj2 => ?_⟩ <;> (unfold parse_table_id; rw [h])

/-- C9 witness: `"ds.t"` inherits the default project, `"p.ds.t"` keeps
its own project whatever the default is. -/
theorem parse_table_id_resolution_witness :
    parse_table_id "ds.t" "projA" =
      .ok { project_id := "projA", dataset_id := "ds", table_id := "t" } ∧
    parse_table_id "p.ds.t" "projA" =
      .ok { project_id := "p", dataset_id := "ds", table_id := "t" } ∧
    parse_table_id "p.ds.t" "projB" =
      .ok { project_id := "p", dataset_id := "ds", table_id := "t" } :=
  ⟨(parse_table_id_resolution "ds.t" "projA").1 "ds" "t" (by decide),
   ((parse_table_id_resolution "p.ds.t" "projA").2 "p" "ds" "t" (by decide)).1,
   ((parse_table_id_resolution "p.ds.t" "projA").2 "p" "ds" "t" (by decide)).2 "projB"⟩

/-- Strict substitution fails exactly when some referenced placeholder is
unbound in the parameter mapping. -/
theorem substTokens_eq_none_iff (t : Template) (p : List (String × String)) :
    substTokens t p = none ↔ ∃ n ∈ referencedVars t, lookupKV p n = none := by
  induction t with
  | nil => simp [substTokens, referencedVars]
  | cons tok rest ih =>
    cases tok with
    | lit s => simpa [substTokens, referencedVars] using ih
    | var n =>
      cases h : lookupKV p n <;> simp [substTokens, referencedVars, h, ih]

/-- C6: with the template loadable, rendering fails exactly when the
template references a placeholder missing from the parameters (no silent
blank substitution), and with all placeholders bound it returns the
substituted text stripped at both ends. -/
theorem render_strict (templates : List (String × Template)) (path : String)
    (t : Template) (params : List (String × String))
    (h : lookupKV templates path = some t) :
    ((∃ e, SqlRenderer.render templates path params = .error e) ↔
      ∃ n ∈ referencedVars t, lookupKV params n = none) ∧
    (∀ s, substTokens t params = some s →
      SqlRenderer.render templates path params = .ok (pyStrip s)) := by
  have hrender : SqlRenderer.render templates path params =
      (match substTokens t params with
       | none => Except.error ("failed to render SQL template " ++ path)
       | some sql => Except.ok (pyStrip sql)) := by
    unfold SqlRenderer.render
    rw [h]
  constructor
  · rw [hrender]
    cases hs : substTokens t params with
    | none => simpa using (substTokens_eq_none_iff t params).mp hs
    | some s =>
      have : substTokens t params ≠ none := by simp [hs]
      simpa using fun hu => this ((substTokens_eq_none_iff t params).mpr hu)
  · intro s hs
    rw [hrender, hs]

/-- C6 witness: rendering `mvTemplate` without `missing_var` fails;
binding it succeeds and strips the whitespace. -/
theorem render_strict_witness :
    (∃ e, SqlRenderer.render mvRoot "q.sql" [] = .error e) ∧
    SqlRenderer.render mvRoot "q.sql" [("missing_var", "x")] = .ok "SELECT x" := by
  constructor
  · exact (render_strict mvRoot "q.sql" mvTemplate [] (by decide)).1.mpr
      ⟨"missing_var", by decide, by decide⟩
  · have h := (render_strict mvRoot "q.sql" mvTemplate [("missing_var", "x")] (by decide)).2
      "  SELECT x  " (by decide)
    have heq : pyStrip "  SELECT x  " = "SELECT x" := by decide
    rw [heq] at h
    exact h

/-- Looking up a key just written by `insertKV` yields the new value. -/
theorem lookupKV_insertKV_self (l : List (String × String)) (k v : String) :
    lookupKV (insertKV l k v) k = some v := by
  induction l with
  | nil => simp [insertKV, lookupKV]
  | cons p rest ih =>
    obtain ⟨k1, v1⟩ := p
    by_cases hk : k1 = k
    · simp [insertKV, lookupKV, hk]
    · rw [show insertKV ((k1, v1) :: rest) k v = (k1, v1) :: insertKV rest k v from by
        simp [insertKV, hk]]
      rw [show lookupKV ((k1, v1) :: insertKV rest k v) k = lookupKV (insertKV rest k v) k from by
        simp [lookupKV, List.find?_cons, hk]]
      exact ih

/-- Success of the model validator characterized: the resolved
environment exists, is in the allowed set, and the result is the input
with exactly the two write-backs applied. -/
theorem validate_labels_and_env_ok (s spec : JobSpec)
    (h : JobSpec.validate_labels_and_env s = .ok spec) :
    ∃ e, resolved_environment s.environment s.labels = some e ∧
      (e = "dev" ∨ e = "stage" ∨ e = "prod") ∧
      spec = { s with environment := some e,
                      labels := insertKV s.labels "environment" e } := by
  simp only [JobSpec.validate_labels_and_env] at h
  split at h
  · exact Except.noConfusion h
  · split at h
    next e heq =>
      split at h
      next hset => exact ⟨e, heq, hset, ((Except.ok.injEq _ _).mp h).symm⟩
      next => exact Except.noConfusion h
    next => exact Except.noConfusion h

/-- Success of pydantic construction decomposed: parsing succeeds exactly
through the model validator applied to the field-validated record. -/
theorem parse_ok_decompose (doc : SpecDoc) (spec : JobSpec)
    (h : JobSpec.parse doc = .ok spec) :
    ∃ s : JobSpec, JobSpec.validate_labels_and_env s = .ok spec ∧
      s.environment = doc.environment ∧ s.labels = doc.labels ∧
      (doc.write_disposition = none → s.write_disposition = "WRITE_TRUNCATE") := by
  unfold JobSpec.parse at h
  split at h
  · exact Except.noConfusion h
  next name hname =>
    split at h
    · exact Except.noConfusion h
    next schedule0 hschedule0 =>
      split at h
      · exact Except.noConfusion h
      next schedule hschedule =>
        split at h
        · exact Except.noConfusion h
        next sql_template hsql =>
          split at h
          · exact Except.noConfusion h
          next destination_table0 hdt0 =>
            split at h
            · exact Except.noConfusion h
            next destination_table hdt =>
              split at h
              · exact Except.noConfusion h
              next write_disposition hwd =>
                split at h
                · exact Except.noConfusion h
                next raw_limit hlim =>
                  split at h
                  · exact Except.noConfusion h
                  next hneg =>
                    refine ⟨_, h, rfl, rfl, fun hnone => ?_⟩
                    rw [hnone] at hwd
                    exact ((Except.ok.injEq _ _).mp hwd).symm

/-- C5: every successfully parsed `JobSpec` has the environment field and
`labels["environment"]` present, equal, and in {dev, stage, prod}; the
shared value is the document's resolved environment (field if non-empty,
else the label). -/
theorem environment_synchronized (doc : SpecDoc) (spec : JobSpec)
    (h : JobSpec.parse doc = .ok spec) :
    ∃ e, spec.environment = some e ∧
      lookupKV spec.labels "environment" = some e ∧
      (e = "dev" ∨ e = "stage" ∨ e = "prod") ∧
      resolved_environment doc.environment doc.labels = some e := by
  obtain ⟨s, hval, henv, hlab, -⟩ := parse_ok_decompose doc spec h
  obtain ⟨e, hres, hset, hspec⟩ := validate_labels_and_env_ok s spec hval
  refine ⟨e, ?_, ?_, hset, ?_⟩
  · rw [hspec]
  · rw [hspec]
    exact lookupKV_insertKV_self s.labels "environment" e
  · rw [← henv, ← hlab]
    exact hres

/-- C5 witness: the sample document parses and its environment is synced. -/
theorem environment_synchronized_witness :
    ∃ e, sampleSpec.environment = some e ∧
      lookupKV sampleSpec.labels "environment" = some e ∧
      (e = "dev" ∨ e = "stage" ∨ e = "prod") ∧
      resolved_environment sampleDoc.environment sampleDoc.labels = some e :=
  environment_synchronized sampleDoc sampleSpec (by decide)

/-- C10: omitting `write_disposition` from the document is the same as
supplying the declared default, and every spec parsed from such a
document carries `"WRITE_TRUNCATE"`. -/
theorem write_disposition_default (doc : SpecDoc)
    (hwd : doc.write_disposition = none) :
    JobSpec.parse doc = JobSpec.parse { doc with write_disposition := some "WRITE_TRUNCATE" } ∧
    ∀ spec, JobSpec.parse doc = .ok spec → spec.write_disposition = "WRITE_TRUNCATE" := by
  constructor
  · have hv : JobSpec.validate_write_disposition "WRITE_TRUNCATE" = Except.ok "WRITE_TRUNCATE" :=
      by decide
    simp only [JobSpec.parse, hwd, hv]
  · intro spec h
    obtain ⟨s, hval, -, -, hdef⟩ := parse_ok_decompose doc spec h
    obtain ⟨e, -, -, hspec⟩ := validate_labels_and_env_ok s spec hval
    rw [hspec]
    exact hdef hwd

/-- C10 witness: the sample document without `write_disposition` still
parses, to a spec carrying the default. -/
theorem write_disposition_default_witness :
    JobSpec.parse { sampleDoc with write_disposition := none } =
      JobSpec.parse { sampleDoc with write_disposition := some "WRITE_TRUNCATE" } ∧
    (JobSpec.parse { sampleDoc with write_disposition := none }).map
      (fun spec => spec.write_disposition) = .ok "WRITE_TRUNCATE" := by
  have h := write_disposition_default { sampleDoc with write_disposition := none } rfl
  exact ⟨h.1, by decide⟩

/-- `deploy_scheduled_query` unfolded past a successful table-id parse. -/
theorem deploy_scheduled_query_eq (job_spec : JobSpec) (sql default_project : String)
    (store : RemoteStore) (parsed : ParsedTableId)
    (h : parse_table_id job_spec.destination_table default_project = .ok parsed) :
    deploy_scheduled_query job_spec sql default_project store =
      (match store.configs.find? (matches_triple job_spec parsed) with
       | none =>
           .ok ((create_transfer_config store (desiredConfig job_spec sql parsed)).1, .created)
       | some existing =>
           .ok (update_transfer_config store
                  { desiredConfig job_spec sql parsed with name := existing.name }
                  ["params", "schedule", "display_name"], .updated)) := by
  unfold deploy_scheduled_query desiredConfig
  rw [h]

/-- C4: reconcile updates the first listed config whose identity triple
matches (configs in a different destination dataset never match), the
update rewrites exactly `params`, `schedule`, `display_name` of that
config and leaves its other fields untouched, and with no match a new
config is created. -/
theorem reconcile_match_and_frame (job_spec : JobSpec) (sql default_project : String)
    (store : RemoteStore) (parsed : ParsedTableId)
    (h : parse_table_id job_spec.destination_table default_project = .ok parsed) :
    (∀ cfg, cfg.destination_dataset_id ≠ parsed.dataset_id →
      matches_triple job_spec parsed cfg = false) ∧
    (store.configs.find? (matches_triple job_spec parsed) = none →
      ∃ s1, deploy_scheduled_query job_spec sql default_project store = .ok (s1, .created)) ∧
    (∀ existing, store.configs.find? (matches_triple job_spec parsed) = some existing →
      deploy_scheduled_query job_spec sql default_project store =
        .ok ({ store with configs := store.configs.map (fun c =>
                 if c.name == existing.name then
                   { c with
                     params := (desiredConfig job_spec sql parsed).params
                     schedule := job_spec.schedule
                     display_name := job_spec.name }
                 else c) }, .updated)) := by
  refine ⟨?_, ?_, ?_⟩
  · intro cfg hne
    have hb : (cfg.destination_dataset_id == parsed.dataset_id) = false := by
      simpa using hne
    simp [matches_triple, hb]
  · intro hnone
    rw [deploy_scheduled_query_eq job_spec sql default_project store parsed h, hnone]
    exact ⟨_, rfl⟩
  · intro existing hsome
    rw [deploy_scheduled_query_eq job_spec sql default_project store parsed h, hsome]
    show Except.ok (update_transfer_config store
        { desiredConfig job_spec sql parsed with name := existing.name }
        ["params", "schedule", "display_name"], DeployBranch.updated) = _
    unfold update_transfer_config
    congr 2

/-- C2: reconciling against an initially empty remote store creates on
the first call, takes the update branch on the second call with the spec
unchanged, and leaves the remote state of the first call untouched. -/
theorem reconcile_idempotent (job_spec : JobSpec) (sql default_project : String)
    (parsed : ParsedTableId)
    (h : parse_table_id job_spec.destination_table default_project = .ok parsed) :
    ∃ s1, deploy_scheduled_query job_spec sql default_project emptyStore = .ok (s1, .created) ∧
      s1.configs.length = 1 ∧
      deploy_scheduled_query job_spec sql default_project s1 = .ok (s1, .updated) := by
  refine ⟨(create_transfer_config emptyStore (desiredConfig job_spec sql parsed)).1, ?_, rfl, ?_⟩
  · rw [deploy_scheduled_query_eq job_spec sql default_project emptyStore parsed h]
    rfl
  · rw [deploy_scheduled_query_eq job_spec sql default_project _ parsed h]
    simp [create_transfer_config, emptyStore, matches_triple, desiredConfig, List.find?,
          update_transfer_config, applyUpdateMask]

/-- C2 witness: the sample spec reconciled twice from an empty store. -/
theorem reconcile_idempotent_witness :
    ∃ s1, deploy_scheduled_query sampleSpec "SELECT 1" "projA" emptyStore =
        .ok (s1, .created) ∧
      s1.configs.length = 1 ∧
      deploy_scheduled_query sampleSpec "SELECT 1" "projA" s1 = .ok (s1, .updated) :=
  reconcile_idempotent sampleSpec "SELECT 1" "projA"
    { project_id := "projA", dataset_id := "ds", table_id := "t" } (by decide)

/-- C4 witness: the same-name/different-dataset config does not match,
and deploying onto `witnessStore` updates `existingCfg` in place,
rewriting only the three masked fields. -/
theorem reconcile_match_and_frame_witness :
    matches_triple sampleSpec { project_id := "projA", dataset_id := "ds", table_id := "t" }
      otherCfg = false ∧
    deploy_scheduled_query sampleSpec "SELECT 1" "projA" witnessStore =
      .ok ({ witnessStore with configs := witnessStore.configs.map (fun c =>
               if c.name == existingCfg.name then
                 { c with
                   params := (desiredConfig sampleSpec "SELECT 1"
                     { project_id := "projA", dataset_id := "ds", table_id := "t" }).params
                   schedule := sampleSpec.schedule
                   display_name := sampleSpec.name }
               else c) }, .updated) := by
  have h := reconcile_match_and_frame sampleSpec "SELECT 1" "projA" witnessStore
    { project_id := "projA", dataset_id := "ds", table_id := "t" } (by decide)
  exact ⟨h.1 otherCfg (by decide), h.2.2 existingCfg (by decide)⟩

/-- `cmd_deploy` unfolded past a successful spec parse. -/
theorem cmd_deploy_eq_of_parse (doc : SpecDoc) (templates : List (String × Template))
    (project : String) (estimatedBytes slot_ms : Nat) (store : RemoteStore)
    (spec : JobSpec) (hspec : JobSpec.parse doc = .ok spec) :
    cmd_deploy doc templates project estimatedBytes slot_ms store =
      (match SqlRenderer.render templates spec.sql_template spec.parameters with
       | .error _ => (1, store)
       | .ok sql =>
         if project = "" then (1, store)
         else
           match dry_run_query estimatedBytes slot_ms spec.limits.max_bytes_billed with
           | .error _ => (1, store)
           | .ok _ =>
             match deploy_scheduled_query spec sql project store with
             | .error _ => (1, store)
             | .ok (store1, _) => (0, store1)) := by
  unfold cmd_deploy
  rw [hspec]

/-- C3: the deploy pipeline returns the failure exit code with the remote
store untouched when spec parsing fails, when rendering fails, or when
the dry-run gate rejects the estimate; the remote store can only change
after all three stages have succeeded. -/
theorem cmd_deploy_gate (doc : SpecDoc) (templates : List (String × Template))
    (project : String) (estimatedBytes slot_ms : Nat) (store : RemoteStore) :
    ((∃ e, JobSpec.parse doc = .error e) →
      cmd_deploy doc templates project estimatedBytes slot_ms store = (1, store)) ∧
    (∀ spec, JobSpec.parse doc = .ok spec →
      (∃ e, SqlRenderer.render templates spec.sql_template spec.parameters = .error e) →
      cmd_deploy doc templates project estimatedBytes slot_ms store = (1, store)) ∧
    (∀ spec sql, JobSpec.parse doc = .ok spec →
      SqlRenderer.render templates spec.sql_template spec.parameters = .ok sql →
      estimatedBytes > spec.limits.max_bytes_billed →
      cmd_deploy doc templates project estimatedBytes slot_ms store = (1, store)) ∧
    ((cmd_deploy doc templates project estimatedBytes slot_ms store).2 ≠ store →
      ∃ spec sql, JobSpec.parse doc = .ok spec ∧
        SqlRenderer.render templates spec.sql_template spec.parameters = .ok sql ∧
        estimatedBytes ≤ spec.limits.max_bytes_billed) := by
  refine ⟨?_, ?_, ?_, ?_⟩
  · rintro ⟨e, he⟩
    unfold cmd_deploy
    rw [he]
  · rintro spec hspec ⟨e, he⟩
    rw [cmd_deploy_eq_of_parse doc templates project estimatedBytes slot_ms store spec hspec, he]
  · intro spec sql hspec hsql hgt
    rw [cmd_deploy_eq_of_parse doc templates project estimatedBytes slot_ms store spec hspec,
        hsql]
    have hd : dry_run_query estimatedBytes slot_ms spec.limits.max_bytes_billed =
        .error (estimatedBytes, spec.limits.max_bytes_billed) := by
      unfold dry_run_query
      simp [hgt]
    by_cases hp : project = "" <;> simp [hp, hd]
  · intro hne
    cases hp : JobSpec.parse doc with
    | error e =>
        exfalso
        apply hne
        unfold cmd_deploy
        rw [hp]
    | ok spec =>
        have h1 := cmd_deploy_eq_of_parse doc templates project estimatedBytes slot_ms store
          spec hp
        cases hr : SqlRenderer.render templates spec.sql_template spec.parameters with
        | error e => rw [h1, hr] at hne; simp at hne
        | ok sql =>
            by_cases hp0 : project = ""
            · rw [h1, hr] at hne
              simp [hp0] at hne
            · by_cases hb : estimatedBytes > spec.limits.max_bytes_billed
              · have hd : dry_run_query estimatedBytes slot_ms spec.limits.max_bytes_billed =
                    .error (estimatedBytes, spec.limits.max_bytes_billed) := by
                  unfold dry_run_query
                  simp [hb]
                rw [h1, hr] at hne
                simp [hp0, hd] at hne
              · exact ⟨spec, sql, rfl, hr, by omega⟩

/-- C3 witness: an invalid document short-circuits the pipeline, and a
valid document whose estimate exceeds the ceiling is stopped at the gate;
in both cases the remote store is untouched. -/
theorem cmd_deploy_gate_witness :
    cmd_deploy { sampleDoc with name := none } sampleRoot "projA" 0 0 witnessStore =
      (1, witnessStore) ∧
    cmd_deploy sampleDoc sampleRoot "projA" 2000000 5 witnessStore = (1, witnessStore) := by
  constructor
  · exact (cmd_deploy_gate { sampleDoc with name := none } sampleRoot "projA" 0 0
      witnessStore).1 ⟨"field required: name", by decide⟩
  · exact (cmd_deploy_gate sampleDoc sampleRoot "projA" 2000000 5 witnessStore).2.2.1
      sampleSpec "SELECT * FROM t WHERE d > 7" (by decide) (by decide) (by decide)
